import Mathlib

/-!
Shallow embedding of the identity-synchronization and verification core of
the scholarship backend (`src/server.js`, with the divergent variants in
`src/unnamed/part_007` and `src/unnamed/part_001` embedded separately where
they differ).  Pure data is modelled directly; the MongoDB `students`
collection is a list of records keyed by unique `email`; the external
Firebase Authentication service (Identity Provider) and the Firestore
`students` collection (Profile Mirror) form an explicit `World` state;
transient external failures are oracle booleans threaded through an
environment record.  Verification codes and tokens are strings, as in the
source (`generateVerificationCode` returns `.toString()` values).
-/

namespace Loaisko

/-- A Credential Store document of the MongoDB `students` collection.
Optional fields model fields that may be absent from the document
(`$unset` removes them).  `codeExpires` doubles for the `codeExpiresAt`
name used by the `part_007` variant; times are epoch milliseconds. -/
structure UserRecord where
  studentNo : String
  email : String
  password : String
  firstName : String
  middleInitial : String
  lastName : String
  course : String
  yearLevel : String
  role : String
  isVerified : Bool
  verificationCode : Option String
  verificationToken : Option String
  codeExpires : Option Nat
  deriving Repr, DecidableEq

/-- A Firebase Authentication user (Identity Provider record). -/
structure IdpUser where
  uid : String
  email : String
  emailVerified : Bool
  displayName : String
  deriving Repr, DecidableEq

/-- External state: the Identity Provider user list and the set of
Firestore `students` document ids (the Profile Mirror). -/
structure World where
  idp : List IdpUser
  fsStudents : List String
  deriving Repr, DecidableEq

/-- Oracle booleans for transient failures of the external services. -/
structure SyncEnv where
  updateFails : Bool
  createFails : Bool
  firestoreFails : Bool
  deriving Repr, DecidableEq

/-- Outcome of the Synchronization Orchestrator. -/
inductive SyncOutcome
  | ok (firebaseUid : String)
  | emailConflict
  | authFailed
  | firestoreFailed
  deriving Repr, DecidableEq

/-- `studentsCollection.findOne with email` - first record with the email. -/
def findByEmail (db : List UserRecord) (email : String) : Option UserRecord :=
  db.find? (fun u => u.email == email)

/-- `studentsCollection.findOne with studentNo`. -/
def findByStudentNo (db : List UserRecord) (sno : String) : Option UserRecord :=
  db.find? (fun u => u.studentNo == sno)

/-- `admin.auth().getUser(uid)` - lookup of the Identity Provider user. -/
def idpGetUser (idp : List IdpUser) (uid : String) : Option IdpUser :=
  idp.find? (fun u => u.uid == uid)

/-- `auth/email-already-exists` on `createUser`: the email is already
claimed by a different Identity Provider uid. -/
def emailClaimedByOther (idp : List IdpUser) (uid email : String) : Bool :=
  idp.any (fun u => u.email == email && u.uid != uid)

/-- `updateOne with email` applying `f` to the matching document (emails
are unique, so the guarded map is the single-document update). -/
def updateByEmail (db : List UserRecord) (e : String)
    (f : UserRecord → UserRecord) : List UserRecord :=
  db.map (fun u => if u.email == e then f u else u)

/-- `updateUser(uid, fields)` on the Identity Provider list. -/
def updateIdpByUid (idp : List IdpUser) (uid : String)
    (f : IdpUser → IdpUser) : List IdpUser :=
  idp.map (fun u => if u.uid == uid then f u else u)

/-- Firestore `set` with merge on the `students` collection: record the doc id. -/
def insertDoc (docs : List String) (id : String) : List String :=
  if docs.contains id then docs else id :: docs

/-- Step 1 of `syncUserToFirebase` in `src/server.js` (lines 58-93): try
`getUser(studentNo)` then `updateUser` with `emailVerified: true`; on
`auth/user-not-found`, `createUser` with `uid: studentNo` and
`emailVerified: true`; `auth/email-already-exists` on create is the
unrecoverable conflict; any other failure aborts. -/
def syncAuthStep (env : SyncEnv) (w : World) (user : UserRecord) :
    SyncOutcome × World :=
  let uid := user.studentNo
  let dn := user.firstName ++ " " ++ user.lastName
  match idpGetUser w.idp uid with
  | some _ =>
      if env.updateFails then (SyncOutcome.authFailed, w)
      else
        (SyncOutcome.ok uid,
         { w with idp := updateIdpByUid w.idp uid (fun u =>
             { u with email := user.email, emailVerified := true,
                      displayName := dn }) })
  | none =>
      if emailClaimedByOther w.idp uid user.email then
        (SyncOutcome.emailConflict, w)
      else if env.createFails then (SyncOutcome.authFailed, w)
      else
        (SyncOutcome.ok uid,
         { w with idp := { uid := uid, email := user.email,
                           emailVerified := true, displayName := dn } :: w.idp })

/-- `syncUserToFirebase` from `src/server.js` (lines 54-121; the second
server.js variant at lines 650-711 is identical): the auth step above,
then the Firestore profile mirror upsert, whose failure is RETHROWN
(fatal) in this variant.  Returns the outcome with the possibly
partially-updated external state. -/
def syncUserToFirebase (env : SyncEnv) (w : World) (user : UserRecord) :
    SyncOutcome × World :=
  match syncAuthStep env w user with
  | (SyncOutcome.ok uid, w1) =>
      if env.firestoreFails then (SyncOutcome.firestoreFailed, w1)
      else (SyncOutcome.ok uid, { w1 with fsStudents := insertDoc w1.fsStudents uid })
  | other => other

/-- Step 1 of `syncUserToFirebase` in `src/unnamed/part_007` (lines 51-77):
the update path sets `emailVerified` to the record's `isVerified`; the
create path omits `emailVerified`, so the external default `false`
applies. -/
def syncAuthStepP7 (env : SyncEnv) (w : World) (user : UserRecord) :
    SyncOutcome × World :=
  let uid := user.studentNo
  let dn := user.firstName ++ " " ++ user.lastName
  match idpGetUser w.idp uid with
  | some _ =>
      if env.updateFails then (SyncOutcome.authFailed, w)
      else
        (SyncOutcome.ok uid,
         { w with idp := updateIdpByUid w.idp uid (fun u =>
             { u with email := user.email, emailVerified := user.isVerified,
                      displayName := dn }) })
  | none =>
      if emailClaimedByOther w.idp uid user.email then
        (SyncOutcome.emailConflict, w)
      else if env.createFails then (SyncOutcome.authFailed, w)
      else
        (SyncOutcome.ok uid,
         { w with idp := { uid := uid, email := user.email,
                           emailVerified := false, displayName := dn } :: w.idp })

/-- `syncUserToFirebase` from `src/unnamed/part_007` (lines 46-100): the
Firestore catch block only logs (`console.error`) - a Profile Mirror
failure is swallowed and the sync still returns the uid. -/
def syncUserToFirebaseP7 (env : SyncEnv) (w : World) (user : UserRecord) :
    SyncOutcome × World :=
  match syncAuthStepP7 env w user with
  | (SyncOutcome.ok uid, w1) =>
      if env.firestoreFails then (SyncOutcome.ok uid, w1)
      else (SyncOutcome.ok uid, { w1 with fsStudents := insertDoc w1.fsStudents uid })
  | other => other

/-- The profile object returned by a successful login. -/
structure Profile where
  studentNo : String
  firebaseUid : String
  firstName : String
  lastName : String
  email : String
  role : String
  deriving Repr, DecidableEq

/-- Response classes of `POST /api/login-and-sync`. -/
inductive LoginResult
  | validationError
  | invalidCredentials
  | notVerified
  | syncFailed (out : SyncOutcome)
  | tokenMintFailed
  | success (user : Profile) (token : String)
  deriving Repr, DecidableEq

/-- `admin.auth().createCustomToken(uid)` - abstracted as a deterministic
token bound to the uid. -/
def mintToken (uid : String) : String := "customToken:" ++ uid

/-- Common body of `POST /api/login-and-sync` (`src/server.js` lines
327-392; `src/unnamed/part_007` lines 206-241 is the same logic),
parameterised by the synchronization procedure: empty-field validation,
lookup by email, the verified-state check BEFORE the bcrypt comparison,
then sync, token minting and the profile response. -/
def loginWith (syncFn : World → UserRecord → SyncOutcome × World)
    (tokenMintFails : Bool) (pwVerify : String → String → Bool)
    (db : List UserRecord) (w : World) (email password : String) :
    LoginResult × World :=
  if email == "" || password == "" then (LoginResult.validationError, w)
  else
    match findByEmail db email with
    | none => (LoginResult.invalidCredentials, w)
    | some user =>
        if !user.isVerified then (LoginResult.notVerified, w)
        else if !(pwVerify password user.password) then
          (LoginResult.invalidCredentials, w)
        else
          match syncFn w user with
          | (SyncOutcome.ok uid, w1) =>
              if tokenMintFails then (LoginResult.tokenMintFailed, w1)
              else
                (LoginResult.success
                  { studentNo := user.studentNo, firebaseUid := uid,
                    firstName := user.firstName, lastName := user.lastName,
                    email := user.email, role := user.role }
                  (mintToken uid), w1)
          | (SyncOutcome.emailConflict, w1) =>
              (LoginResult.syncFailed SyncOutcome.emailConflict, w1)
          | (SyncOutcome.authFailed, w1) =>
              (LoginResult.syncFailed SyncOutcome.authFailed, w1)
          | (SyncOutcome.firestoreFailed, w1) =>
              (LoginResult.syncFailed SyncOutcome.firestoreFailed, w1)

/-- Environment of a login request: sync-failure oracles, the token-mint
oracle and the bcrypt `compare` primitive. -/
structure LoginEnv where
  sync : SyncEnv
  tokenMintFails : Bool
  pwVerify : String → String → Bool

/-- `POST /api/login-and-sync` of `src/server.js`. -/
def loginAndSync (env : LoginEnv) (db : List UserRecord) (w : World)
    (email password : String) : LoginResult × World :=
  loginWith (syncUserToFirebase env.sync) env.tokenMintFails env.pwVerify
    db w email password

/-- `POST /api/login-and-sync` of `src/unnamed/part_007` (same handler body,
calling the part_007 orchestrator). -/
def loginAndSyncP7 (env : LoginEnv) (db : List UserRecord) (w : World)
    (email password : String) : LoginResult × World :=
  loginWith (syncUserToFirebaseP7 env.sync) env.tokenMintFails env.pwVerify
    db w email password

/-- Response classes of `POST /api/verify-code`. -/
inductive VerifyResult
  | validationError
  | notFound
  | alreadyVerified
  | invalidCode
  | codeExpired
  | verified
  | syncFailed (out : SyncOutcome)
  deriving Repr, DecidableEq

/-- `now > codeExpiresAt` guard of the source: the JS condition
`user.codeExpires and user.codeExpires < currentTime` only fires when the
field is present on the document. -/
def expiredAt (codeExpires : Option Nat) (now : Nat) : Bool :=
  match codeExpires with
  | none => false
  | some t => t < now

/-- The `$set isVerified / $unset code, token, expiry` update applied to a
single record by a successful verification. -/
def markVerifiedRec (u : UserRecord) : UserRecord :=
  { u with isVerified := true, verificationCode := none,
           verificationToken := none, codeExpires := none }

/-- `updateOne with email` applying `markVerifiedRec`. -/
def markVerifiedFull (db : List UserRecord) (email : String) : List UserRecord :=
  updateByEmail db email markVerifiedRec

/-- The `$unset verificationCode, codeExpiresAt` purge that the `part_007`
variant applies to an expired code. -/
def purgeCode (db : List UserRecord) (email : String) : List UserRecord :=
  updateByEmail db email (fun u =>
    { u with verificationCode := none, codeExpires := none })

/-- `POST /api/verify-code` from `src/server.js` (lines 887-935): not-found,
already-verified no-op, code mismatch, then the expiry guard WITHOUT any
purge, then the verify update followed by a re-fetch and the (fatal on
failure) orchestrator call.  The database update precedes the sync, so a
sync failure still leaves the record verified. -/
def verifyCode (env : SyncEnv) (db : List UserRecord) (w : World) (now : Nat)
    (email code : String) : VerifyResult × List UserRecord × World :=
  if email == "" || code == "" then (VerifyResult.validationError, db, w)
  else
    match findByEmail db email with
    | none => (VerifyResult.notFound, db, w)
    | some user =>
        if user.isVerified then (VerifyResult.alreadyVerified, db, w)
        else if user.verificationCode != some code then
          (VerifyResult.invalidCode, db, w)
        else if expiredAt user.codeExpires now then
          (VerifyResult.codeExpired, db, w)
        else
          let db1 := markVerifiedFull db email
          match findByEmail db1 email with
          | none => (VerifyResult.verified, db1, w)
          | some vUser =>
              match syncUserToFirebase env w vUser with
              | (SyncOutcome.ok _, w1) => (VerifyResult.verified, db1, w1)
              | (out, w1) => (VerifyResult.syncFailed out, db1, w1)

/-- `POST /api/verify-code` from `src/unnamed/part_007` (lines 244-273): an
expired matching code is PURGED (`$unset verificationCode, codeExpiresAt`)
before the error response; the success path clears the code and expiry,
calls `updateUser(studentNo, emailVerified: true)` (uncaught, so a missing
Identity Provider user aborts with a server error after the record is
already verified) and then the part_007 orchestrator. -/
def verifyCodeP7 (env : SyncEnv) (db : List UserRecord) (w : World) (now : Nat)
    (email code : String) : VerifyResult × List UserRecord × World :=
  if email == "" || code == "" then (VerifyResult.validationError, db, w)
  else
    match findByEmail db email with
    | none => (VerifyResult.notFound, db, w)
    | some user =>
        if user.isVerified then (VerifyResult.alreadyVerified, db, w)
        else if user.verificationCode != some code then
          (VerifyResult.invalidCode, db, w)
        else if expiredAt user.codeExpires now then
          (VerifyResult.codeExpired, purgeCode db email, w)
        else
          let db1 := updateByEmail db email (fun u =>
            { u with isVerified := true, verificationCode := none,
                     codeExpires := none })
          match idpGetUser w.idp user.studentNo with
          | none => (VerifyResult.syncFailed SyncOutcome.authFailed, db1, w)
          | some _ =>
              if env.updateFails then
                (VerifyResult.syncFailed SyncOutcome.authFailed, db1, w)
              else
                let w1 := { w with idp := (updateIdpByUid w.idp user.studentNo
                  (fun iu => { iu with emailVerified := true })) }
                match syncUserToFirebaseP7 env w1 { user with isVerified := true } with
                | (SyncOutcome.ok _, w2) => (VerifyResult.verified, db1, w2)
                | (out, w2) => (VerifyResult.syncFailed out, db1, w2)

/-- Response classes of `GET /api/verify-link`. -/
inductive LinkResult
  | validationError
  | invalidLink
  | alreadyVerified
  | verified
  | syncFailed (out : SyncOutcome)
  deriving Repr, DecidableEq

/-- `GET /api/verify-link` from `src/server.js` (lines 941-1000; identical
in `src/unnamed/part_001` lines 397-456): the token comparison PRECEDES
the already-verified check
(`if (!user or user.verificationToken !== token)` comes first), and the
handler never reads the clock - no expiry guard exists on this path. -/
def verifyLink (env : SyncEnv) (db : List UserRecord) (w : World)
    (email token : String) : LinkResult × List UserRecord × World :=
  if token == "" || email == "" then (LinkResult.validationError, db, w)
  else
    match findByEmail db email with
    | none => (LinkResult.invalidLink, db, w)
    | some user =>
        if user.verificationToken != some token then (LinkResult.invalidLink, db, w)
        else if user.isVerified then (LinkResult.alreadyVerified, db, w)
        else
          let db1 := markVerifiedFull db email
          match findByEmail db1 email with
          | none => (LinkResult.verified, db1, w)
          | some vUser =>
              match syncUserToFirebase env w vUser with
              | (SyncOutcome.ok _, w1) => (LinkResult.verified, db1, w1)
              | (out, w1) => (LinkResult.syncFailed out, db1, w1)

/-- Response classes of `POST /api/resend-code`. -/
inductive ResendResult
  | validationError
  | notFound
  | alreadyVerified
  | sentOk
  | sentButEmailFailed
  deriving Repr, DecidableEq

/-- `POST /api/resend-code` from `src/server.js` (lines 1007-1064).  The
freshly generated code/token and the new expiry are parameters (random and
clock values in the source); an already-verified account short-circuits
before any write.  A mail failure keeps the database update (202). -/
def resendCode (db : List UserRecord) (email : String)
    (newCode newToken : String) (newExpiry : Nat) (emailSent : Bool) :
    ResendResult × List UserRecord :=
  if email == "" then (ResendResult.validationError, db)
  else
    match findByEmail db email with
    | none => (ResendResult.notFound, db)
    | some user =>
        if user.isVerified then (ResendResult.alreadyVerified, db)
        else
          let db1 := updateByEmail db email (fun u =>
            { u with verificationCode := some newCode,
                     verificationToken := some newToken,
                     codeExpires := some newExpiry })
          if emailSent then (ResendResult.sentOk, db1)
          else (ResendResult.sentButEmailFailed, db1)

/-- Request body of `POST /api/register`. -/
structure RegisterInput where
  firstName : String
  middleInitial : String
  lastName : String
  studentNo : String
  course : String
  yearLevel : String
  email : String
  password : String
  deriving Repr, DecidableEq

/-- Response classes of `POST /api/register`. -/
inductive RegisterResult
  | validationError
  | duplicateStudentNo
  | duplicateEmail
  | registered
  | registeredEmailFailed
  deriving Repr, DecidableEq

/-- `POST /api/register` from `src/server.js` (lines 737-809, the variant
that stores the verification code/token on the record): duplicate
studentNo check, duplicate email check, then insert of an unverified
record carrying the fresh code/token/expiry; a mail failure keeps the
record (202 response).  Hash, code, token, expiry and the mailer outcome
are parameters. -/
def register (db : List UserRecord) (input : RegisterInput)
    (hashed code token : String) (expiry : Nat) (emailSent : Bool) :
    RegisterResult × List UserRecord :=
  if input.email == "" || input.password == "" || input.studentNo == "" then
    (RegisterResult.validationError, db)
  else if (findByStudentNo db input.studentNo).isSome then
    (RegisterResult.duplicateStudentNo, db)
  else if (findByEmail db input.email).isSome then
    (RegisterResult.duplicateEmail, db)
  else
    let newRec : UserRecord :=
      { studentNo := input.studentNo, email := input.email, password := hashed,
        firstName := input.firstName, middleInitial := input.middleInitial,
        lastName := input.lastName, course := input.course,
        yearLevel := input.yearLevel, role := "student", isVerified := false,
        verificationCode := some code, verificationToken := some token,
        codeExpires := some expiry }
    let db1 := db ++ [newRec]
    if emailSent then (RegisterResult.registered, db1)
    else (RegisterResult.registeredEmailFailed, db1)

/-- Response classes of `DELETE /api/admin/delete-student`. -/
inductive DeleteResult
  | validationError
  | notFoundBoth
  | deleted (mongoDeleted authDeleted : Bool)
  | serverError
  deriving Repr, DecidableEq

/-- Oracles for transient failures during administrative deletion. -/
structure DeleteEnv where
  authDeleteFails : Bool
  firestoreDeleteFails : Bool
  deriving Repr, DecidableEq

/-- `deleteOne with email`: remove the first matching document. -/
def deleteOneByEmail : List UserRecord → String → List UserRecord
  | [], _ => []
  | u :: rest, email =>
      if u.email == email then rest else u :: deleteOneByEmail rest email

/-- `DELETE /api/admin/delete-student` from `src/server.js` (lines 473-529):
delete the Mongo record by email (`mongoDeleted` iff one was removed);
`deleteUser(studentNo)` with `auth/user-not-found` tolerated (leaving
`authDeleted` false) and any other auth failure rethrown as a 500;
Firestore deletions wrapped in a catch that only warns; a 404 when
neither primary store had a record. -/
def deleteStudent (env : DeleteEnv) (db : List UserRecord) (w : World)
    (studentNo email : String) : DeleteResult × List UserRecord × World :=
  if studentNo == "" || email == "" then (DeleteResult.validationError, db, w)
  else
    let mongoDeleted := (findByEmail db email).isSome
    let db1 := deleteOneByEmail db email
    match idpGetUser w.idp studentNo with
    | some _ =>
        if env.authDeleteFails then (DeleteResult.serverError, db1, w)
        else
          let w1 := { w with idp := w.idp.filter (fun u => !(u.uid == studentNo)) }
          let w2 := if env.firestoreDeleteFails then w1
            else { w1 with fsStudents :=
                     w1.fsStudents.filter (fun d => !(d == studentNo)) }
          (DeleteResult.deleted mongoDeleted true, db1, w2)
    | none =>
        let w2 := if env.firestoreDeleteFails then w
          else { w with fsStudents := w.fsStudents.filter (fun d => !(d == studentNo)) }
        if !mongoDeleted then (DeleteResult.notFoundBoth, db1, w2)
        else (DeleteResult.deleted mongoDeleted false, db1, w2)

/-- One request of the system, for the monotonicity claim: the operations
named by the claim with all their non-deterministic inputs (clock, fresh
code/token, mailer and external-service outcomes) as parameters. -/
inductive Op
  | opVerifyCode (env : SyncEnv) (now : Nat) (email code : String)
  | opVerifyLink (env : SyncEnv) (email token : String)
  | opResendCode (email newCode newToken : String) (newExpiry : Nat) (emailSent : Bool)
  | opLogin (env : LoginEnv) (email password : String)
  | opRegister (input : RegisterInput) (hashed code token : String)
      (expiry : Nat) (emailSent : Bool)

/-- The Credential Store / external state transformation performed by one
request (the response is discarded).  `login-and-sync` never writes the
Credential Store. -/
def applyOp (db : List UserRecord) (w : World) : Op → List UserRecord × World
  | Op.opVerifyCode env now email code =>
      ((verifyCode env db w now email code).2.1, (verifyCode env db w now email code).2.2)
  | Op.opVerifyLink env email token =>
      ((verifyLink env db w email token).2.1, (verifyLink env db w email token).2.2)
  | Op.opResendCode email c t e sent => ((resendCode db email c t e sent).2, w)
  | Op.opLogin env email password => (db, (loginAndSync env db w email password).2)
  | Op.opRegister input hashed c t e sent => ((register db input hashed c t e sent).2, w)

/-! Helper lemmas about lookups under the guarded single-document updates. -/

theorem find_map_congr {α : Type} (l : List α) (p : α → Bool) (g : α → α)
    (hg : ∀ x, p (g x) = p x) : (l.map g).find? p = (l.find? p).map g := by
  induction l with
  | nil => rfl
  | cons a l ih =>
      simp only [List.map_cons, List.find?]
      rw [hg a]
      cases hpa : p a
      · simpa using ih
      · simp

theorem find_append_some {α : Type} (l1 l2 : List α) (p : α → Bool) (a : α)
    (h : l1.find? p = some a) : (l1 ++ l2).find? p = some a := by
  induction l1 with
  | nil => simp [List.find?] at h
  | cons b l ih =>
      simp only [List.cons_append, List.find?] at h ⊢
      cases hpb : p b
      · rw [hpb] at h; simpa using ih (by simpa using h)
      · rw [hpb] at h; simpa using h

theorem findByEmail_email {db : List UserRecord} {e : String} {r : UserRecord}
    (h : findByEmail db e = some r) : r.email = e := by
  have hp := List.find?_some h
  simpa using hp

theorem idpGetUser_uid {idp : List IdpUser} {uid : String} {x : IdpUser}
    (h : idpGetUser idp uid = some x) : x.uid = uid := by
  have hp := List.find?_some h
  simpa using hp

theorem findByEmail_update_self {db : List UserRecord} {e : String}
    {f : UserRecord → UserRecord} {r : UserRecord}
    (hf : ∀ u, (f u).email = u.email) (h : findByEmail db e = some r) :
    findByEmail (updateByEmail db e f) e = some (f r) := by
  have hg : ∀ u : UserRecord,
      ((if u.email == e then f u else u).email == e) = (u.email == e) := by
    intro u
    by_cases hu : u.email = e
    · simp [hu, hf]
    · simp [hu]
  have hmap := find_map_congr db (fun u => u.email == e)
    (fun u => if u.email == e then f u else u) hg
  have hre : r.email = e := findByEmail_email h
  unfold updateByEmail findByEmail at *
  rw [hmap, h]
  simp [hre]

theorem findByEmail_update_other {db : List UserRecord} {e e0 : String}
    {f : UserRecord → UserRecord} {r : UserRecord}
    (hf : ∀ u, (f u).email = u.email) (hne : e ≠ e0)
    (h : findByEmail db e = some r) :
    findByEmail (updateByEmail db e0 f) e = some r := by
  have hg : ∀ u : UserRecord,
      ((if u.email == e0 then f u else u).email == e) = (u.email == e) := by
    intro u
    by_cases hu : u.email = e0
    · simp [hu, hf]
    · simp [hu]
  have hmap := find_map_congr db (fun u => u.email == e)
    (fun u => if u.email == e0 then f u else u) hg
  have hre : r.email = e := findByEmail_email h
  unfold updateByEmail findByEmail at *
  rw [hmap, h]
  simp [hre, hne]

theorem findByEmail_append {db l : List UserRecord} {e : String} {r : UserRecord}
    (h : findByEmail db e = some r) : findByEmail (db ++ l) e = some r :=
  find_append_some db l _ r h

theorem idpGetUser_update_self {idp : List IdpUser} {uid : String}
    {f : IdpUser → IdpUser} {x : IdpUser}
    (hf : ∀ u, (f u).uid = u.uid) (h : idpGetUser idp uid = some x) :
    idpGetUser (updateIdpByUid idp uid f) uid = some (f x) := by
  have hg : ∀ u : IdpUser,
      ((if u.uid == uid then f u else u).uid == uid) = (u.uid == uid) := by
    intro u
    by_cases hu : u.uid = uid
    · simp [hu, hf]
    · simp [hu]
  have hmap := find_map_congr idp (fun u => u.uid == uid)
    (fun u => if u.uid == uid then f u else u) hg
  have hxe : x.uid = uid := idpGetUser_uid h
  unfold updateIdpByUid idpGetUser at *
  rw [hmap, h]
  simp [hxe]

/-- Characterization of a successful Identity Provider step of the server.js
orchestrator: the returned uid is the record's `studentNo`, the Identity
Provider afterwards holds a user keyed by it with `emailVerified = true`,
and the Firestore state is untouched by this step. -/
theorem syncAuthStep_ok (env : SyncEnv) (w : World) (u : UserRecord) (uid : String)
    (h : (syncAuthStep env w u).1 = SyncOutcome.ok uid) :
    uid = u.studentNo ∧
    (∃ ipu, idpGetUser (syncAuthStep env w u).2.idp u.studentNo = some ipu ∧
      ipu.emailVerified = true) ∧
    (syncAuthStep env w u).2.fsStudents = w.fsStudents := by
  simp only [syncAuthStep] at h ⊢
  cases hget : idpGetUser w.idp u.studentNo with
  | some x =>
      simp only [hget] at h ⊢
      cases hup : env.updateFails
      · simp only [hup, Bool.false_eq_true, if_false, SyncOutcome.ok.injEq] at h ⊢
        exact ⟨h.symm, ⟨_, idpGetUser_update_self (fun y => rfl) hget, rfl⟩, trivial⟩
      · simp [hup] at h
  | none =>
      simp only [hget] at h ⊢
      cases hcl : emailClaimedByOther w.idp u.studentNo u.email
      · cases hcr : env.createFails
        · simp only [hcl, hcr, Bool.false_eq_true, if_false, SyncOutcome.ok.injEq] at h ⊢
          refine ⟨h.symm,
            ⟨{ uid := u.studentNo, email := u.email, emailVerified := true,
               displayName := u.firstName ++ " " ++ u.lastName }, ?_, rfl⟩, trivial⟩
          simp [idpGetUser, List.find?]
        · simp [hcl, hcr] at h
      · simp [hcl] at h

/-- A successful server.js sync returns the record's `studentNo` as uid and
leaves an Identity Provider user keyed by it with `emailVerified = true`. -/
theorem sync_ok_core (env : SyncEnv) (w : World) (u : UserRecord) (uid : String)
    (h : (syncUserToFirebase env w u).1 = SyncOutcome.ok uid) :
    uid = u.studentNo ∧
    ∃ ipu, idpGetUser (syncUserToFirebase env w u).2.idp u.studentNo = some ipu ∧
      ipu.emailVerified = true := by
  rcases hstep : syncAuthStep env w u with ⟨out, w1⟩
  simp only [syncUserToFirebase, hstep] at h ⊢
  cases out with
  | ok uid0 =>
      cases hfs : env.firestoreFails
      · simp only [hfs, Bool.false_eq_true, if_false, SyncOutcome.ok.injEq] at h ⊢
        obtain ⟨huid, ⟨ipu, hipu, hev⟩, _⟩ :=
          syncAuthStep_ok env w u uid0 (by rw [hstep])
        rw [hstep] at hipu
        exact ⟨h ▸ huid, ⟨ipu, by simpa using hipu, hev⟩⟩
      · simp [hfs] at h
  | emailConflict => simp at h
  | authFailed => simp at h
  | firestoreFailed => simp at h

/-- Sample unverified record for concrete evaluations. -/
def sampleUnverified : UserRecord :=
  { studentNo := "S001", email := "a@x.com", password := "hpw",
    firstName := "Alice", middleInitial := "B", lastName := "Lee",
    course := "BSCS", yearLevel := "1", role := "student",
    isVerified := false, verificationCode := some "123456",
    verificationToken := some "tok", codeExpires := some 1000 }

/-- Sample verified record (post-verification field state). -/
def sampleVerified : UserRecord :=
  { sampleUnverified with
    studentNo := "S002"
    email := "v@x.com"
    isVerified := true
    verificationCode := none
    verificationToken := none
    codeExpires := none }

/-- All-healthy external environment. -/
def env0 : SyncEnv :=
  { updateFails := false, createFails := false, firestoreFails := false }

/-- Empty external state. -/
def w0 : World := { idp := [], fsStudents := [] }

/-- Claim C1 (amended): after every successful run of the server.js
`syncUserToFirebase`, the Identity Provider user keyed by the record's
`studentNo` has `emailVerified = true` unconditionally; this equals the
record's `isVerified` exactly when the record is verified — which holds at
every call site of the orchestrator — but it is not the claimed equality
for unverified records. -/
theorem C1_sync_emailVerified_amended (env : SyncEnv) (w : World)
    (u : UserRecord) (uid : String)
    (h : (syncUserToFirebase env w u).1 = SyncOutcome.ok uid) :
    uid = u.studentNo ∧
    ∃ ipu, idpGetUser (syncUserToFirebase env w u).2.idp u.studentNo = some ipu ∧
      ipu.emailVerified = true ∧
      (u.isVerified = true → ipu.emailVerified = u.isVerified) := by
  obtain ⟨huid, ipu, hipu, hev⟩ := sync_ok_core env w u uid h
  exact ⟨huid, ipu, hipu, hev, fun hv => by rw [hev, hv]⟩

/-- Claim C1 counterexample: `syncUserToFirebase` applied to an unverified
record completes successfully and leaves the Identity Provider user with
`emailVerified = true`, while the record has `isVerified = false` — the
claimed equality `emailVerified = isVerified` fails. -/
theorem C1_counterexample :
    sampleUnverified.isVerified = false ∧
    (syncUserToFirebase env0 w0 sampleUnverified).1 = SyncOutcome.ok "S001" ∧
    (idpGetUser (syncUserToFirebase env0 w0 sampleUnverified).2.idp "S001").map
      (fun ipu => ipu.emailVerified) = some true :=
  ⟨rfl, rfl, rfl⟩

/-- Witness for C1's amended theorem at a concrete verified record. -/
theorem C1_witness :
    "S002" = sampleVerified.studentNo ∧
    ∃ ipu, idpGetUser (syncUserToFirebase env0 w0 sampleVerified).2.idp
        sampleVerified.studentNo = some ipu ∧
      ipu.emailVerified = true ∧
      (sampleVerified.isVerified = true → ipu.emailVerified = sampleVerified.isVerified) :=
  C1_sync_emailVerified_amended env0 w0 sampleVerified "S002" rfl

/-- Healthy login environment with a concrete password-verify primitive. -/
def loginEnv0 : LoginEnv :=
  { sync := env0, tokenMintFails := false, pwVerify := fun p h => p == h }

/-- Claim C4: for a stored record with `isVerified = false`, login returns
the NotVerified failure (the 403 with `needsVerification`) for every
submitted (nonempty) password — the bcrypt comparison is only reached
after the verified-state check, so the response is identical across any
two passwords. -/
theorem C4_login_unverified_noninterference (env : LoginEnv)
    (db : List UserRecord) (w : World) (email p1 p2 : String) (u : UserRecord)
    (hemail : email ≠ "") (hp1 : p1 ≠ "") (hp2 : p2 ≠ "")
    (hfind : findByEmail db email = some u) (hver : u.isVerified = false) :
    loginAndSync env db w email p1 = (LoginResult.notVerified, w) ∧
    loginAndSync env db w email p1 = loginAndSync env db w email p2 := by
  have key : ∀ p : String, p ≠ "" →
      loginAndSync env db w email p = (LoginResult.notVerified, w) := by
    intro p hp
    simp [loginAndSync, loginWith, hfind, hemail, hp, hver]
  exact ⟨key p1 hp1, by rw [key p1 hp1, key p2 hp2]⟩

/-- Witness for C4 at a concrete unverified record, with the record's own
password on one side and a wrong password on the other. -/
theorem C4_witness :
    loginAndSync loginEnv0 [sampleUnverified] w0 "a@x.com" "hpw" =
      (LoginResult.notVerified, w0) ∧
    loginAndSync loginEnv0 [sampleUnverified] w0 "a@x.com" "hpw" =
      loginAndSync loginEnv0 [sampleUnverified] w0 "a@x.com" "wrong" :=
  C4_login_unverified_noninterference loginEnv0 [sampleUnverified] w0
    "a@x.com" "hpw" "wrong" sampleUnverified (by decide) (by decide) (by decide)
    rfl rfl

/-- Claim C5: for a verified record, the correct password, and successful
synchronization and token minting, login succeeds with a session token
bound to the synced uid, and the returned profile's `studentNo` and
`firebaseUid` both equal the record's `studentNo` — the identifier used as
the Identity Provider user key, under which the Identity Provider holds a
user after the login. -/
theorem C5_login_success_profile_id (env : LoginEnv) (db : List UserRecord)
    (w : World) (email password : String) (u : UserRecord) (uid : String)
    (hemail : email ≠ "") (hpw : password ≠ "")
    (hfind : findByEmail db email = some u) (hver : u.isVerified = true)
    (hmatch : env.pwVerify password u.password = true)
    (hsync : (syncUserToFirebase env.sync w u).1 = SyncOutcome.ok uid)
    (htok : env.tokenMintFails = false) :
    ∃ pr w1, loginAndSync env db w email password =
        (LoginResult.success pr (mintToken uid), w1) ∧
      pr.studentNo = u.studentNo ∧ pr.firebaseUid = u.studentNo ∧
      (idpGetUser w1.idp u.studentNo).isSome = true := by
  obtain ⟨huid, ipu, hipu, _⟩ := sync_ok_core env.sync w u uid hsync
  rcases hs : syncUserToFirebase env.sync w u with ⟨out, w1⟩
  have hout : out = SyncOutcome.ok uid := by
    have h1 := hsync
    rw [hs] at h1
    exact h1
  subst hout
  rw [hs] at hipu
  refine ⟨{ studentNo := u.studentNo, firebaseUid := uid,
            firstName := u.firstName, lastName := u.lastName,
            email := u.email, role := u.role }, w1, ?_, rfl, huid, ?_⟩
  · simp [loginAndSync, loginWith, hfind, hemail, hpw, hver, hmatch, hs, htok]
  · simp only [] at hipu
    simp [hipu]

/-- Witness for C5 at a concrete verified record with its correct password. -/
theorem C5_witness :
    ∃ pr w1, loginAndSync loginEnv0 [sampleVerified] w0 "v@x.com" "hpw" =
        (LoginResult.success pr (mintToken "S002"), w1) ∧
      pr.studentNo = sampleVerified.studentNo ∧
      pr.firebaseUid = sampleVerified.studentNo ∧
      (idpGetUser w1.idp sampleVerified.studentNo).isSome = true :=
  C5_login_success_profile_id loginEnv0 [sampleVerified] w0 "v@x.com" "hpw"
    sampleVerified "S002" (by decide) (by decide) rfl rfl (by decide) rfl rfl

/-- Environment in which the Firestore (Profile Mirror) upsert fails. -/
def envFsFail : SyncEnv :=
  { updateFails := false, createFails := false, firestoreFails := true }

/-- Login environment with a failing Profile Mirror. -/
def loginEnvFsFail : LoginEnv :=
  { sync := envFsFail, tokenMintFails := false, pwVerify := fun p h => p == h }

/-- Claim C6 (amended): in the part_007 orchestrator a Profile Mirror
failure is swallowed — login still succeeds when the Identity Provider
step and token minting succeed; in the server.js orchestrator a Profile
Mirror failure aborts the login with an error; and in both variants any
Identity Provider outcome other than success aborts the login with an
error. -/
theorem C6_mirror_asymmetry_amended (env : LoginEnv) (db : List UserRecord)
    (w : World) (email password : String) (u : UserRecord)
    (hemail : email ≠ "") (hpw : password ≠ "")
    (hfind : findByEmail db email = some u) (hver : u.isVerified = true)
    (hmatch : env.pwVerify password u.password = true)
    (htok : env.tokenMintFails = false) :
    (∀ uid w1, syncAuthStepP7 env.sync w u = (SyncOutcome.ok uid, w1) →
      ∃ pr w2, loginAndSyncP7 env db w email password =
        (LoginResult.success pr (mintToken uid), w2)) ∧
    (∀ uid w1, syncAuthStep env.sync w u = (SyncOutcome.ok uid, w1) →
      env.sync.firestoreFails = true →
      (loginAndSync env db w email password).1 =
        LoginResult.syncFailed SyncOutcome.firestoreFailed) ∧
    (∀ out w1, syncAuthStep env.sync w u = (out, w1) →
      (∀ uid, out ≠ SyncOutcome.ok uid) →
      (loginAndSync env db w email password).1 = LoginResult.syncFailed out) ∧
    (∀ out w1, syncAuthStepP7 env.sync w u = (out, w1) →
      (∀ uid, out ≠ SyncOutcome.ok uid) →
      (loginAndSyncP7 env db w email password).1 = LoginResult.syncFailed out) := by
  refine ⟨?_, ?_, ?_, ?_⟩
  · intro uid w1 hstep
    cases hfs : env.sync.firestoreFails
    · exact ⟨{ studentNo := u.studentNo, firebaseUid := uid,
               firstName := u.firstName, lastName := u.lastName,
               email := u.email, role := u.role },
        { w1 with fsStudents := insertDoc w1.fsStudents uid },
        by simp [loginAndSyncP7, loginWith, syncUserToFirebaseP7, hstep, hfs,
                 hfind, hemail, hpw, hver, hmatch, htok]⟩
    · exact ⟨{ studentNo := u.studentNo, firebaseUid := uid,
               firstName := u.firstName, lastName := u.lastName,
               email := u.email, role := u.role }, w1,
        by simp [loginAndSyncP7, loginWith, syncUserToFirebaseP7, hstep, hfs,
                 hfind, hemail, hpw, hver, hmatch, htok]⟩
  · intro uid w1 hstep hfs
    simp [loginAndSync, loginWith, syncUserToFirebase, hstep, hfs,
          hfind, hemail, hpw, hver, hmatch]
  · intro out w1 hstep hne
    cases out with
    | ok uid => exact absurd rfl (hne uid)
    | emailConflict =>
        simp [loginAndSync, loginWith, syncUserToFirebase, hstep,
              hfind, hemail, hpw, hver, hmatch]
    | authFailed =>
        simp [loginAndSync, loginWith, syncUserToFirebase, hstep,
              hfind, hemail, hpw, hver, hmatch]
    | firestoreFailed =>
        simp [loginAndSync, loginWith, syncUserToFirebase, hstep,
              hfind, hemail, hpw, hver, hmatch]
  · intro out w1 hstep hne
    cases out with
    | ok uid => exact absurd rfl (hne uid)
    | emailConflict =>
        simp [loginAndSyncP7, loginWith, syncUserToFirebaseP7, hstep,
              hfind, hemail, hpw, hver, hmatch]
    | authFailed =>
        simp [loginAndSyncP7, loginWith, syncUserToFirebaseP7, hstep,
              hfind, hemail, hpw, hver, hmatch]
    | firestoreFailed =>
        simp [loginAndSyncP7, loginWith, syncUserToFirebaseP7, hstep,
              hfind, hemail, hpw, hver, hmatch]

/-- Claim C6 counterexample: with a failing Profile Mirror, the Identity
Provider step of the server.js orchestrator succeeds and token minting is
healthy, yet the server.js login aborts with the Firestore error instead
of succeeding. -/
theorem C6_counterexample :
    (syncAuthStep envFsFail w0 sampleVerified).1 = SyncOutcome.ok "S002" ∧
    loginEnvFsFail.tokenMintFails = false ∧
    (loginAndSync loginEnvFsFail [sampleVerified] w0 "v@x.com" "hpw").1 =
      LoginResult.syncFailed SyncOutcome.firestoreFailed :=
  ⟨rfl, rfl, rfl⟩

/-- Login environment whose Identity Provider `updateUser` fails. -/
def loginEnvIdpFail : LoginEnv :=
  { sync := { updateFails := true, createFails := false, firestoreFails := false },
    tokenMintFails := false, pwVerify := fun p h => p == h }

/-- External state already holding the Identity Provider user for the
sample verified record. -/
def wS2 : World :=
  { idp := [{ uid := "S002", email := "v@x.com", emailVerified := true,
              displayName := "Alice Lee" }],
    fsStudents := [] }

/-- Witness for C6's amended theorem: the same failing-mirror run succeeds
under the part_007 orchestrator and aborts under the server.js one, and an
Identity Provider update failure aborts the part_007 login as well. -/
theorem C6_witness :
    (∃ pr w2, loginAndSyncP7 loginEnvFsFail [sampleVerified] w0 "v@x.com" "hpw" =
      (LoginResult.success pr (mintToken "S002"), w2)) ∧
    (loginAndSync loginEnvFsFail [sampleVerified] w0 "v@x.com" "hpw").1 =
      LoginResult.syncFailed SyncOutcome.firestoreFailed ∧
    (loginAndSyncP7 loginEnvIdpFail [sampleVerified] wS2 "v@x.com" "hpw").1 =
      LoginResult.syncFailed SyncOutcome.authFailed := by
  have h := C6_mirror_asymmetry_amended loginEnvFsFail [sampleVerified] w0
    "v@x.com" "hpw" sampleVerified (by decide) (by decide) rfl rfl (by decide) rfl
  have h2 := C6_mirror_asymmetry_amended loginEnvIdpFail [sampleVerified] wS2
    "v@x.com" "hpw" sampleVerified (by decide) (by decide) rfl rfl (by decide) rfl
  exact ⟨h.1 "S002" _ rfl, h.2.1 "S002" _ rfl rfl,
    h2.2.2.2 SyncOutcome.authFailed wS2 rfl (fun uid hh => nomatch hh)⟩

/-- Lookup after the verification update: the record reappears with
`markVerifiedRec` applied. -/
theorem findByEmail_markVerified {db : List UserRecord} {email : String}
    {u : UserRecord} (hfind : findByEmail db email = some u) :
    findByEmail (markVerifiedFull db email) email = some (markVerifiedRec u) := by
  unfold markVerifiedFull
  exact findByEmail_update_self (fun v => rfl) hfind

/-- Success path of the server.js `POST /api/verify-code`: matching,
unexpired code on an unverified record verifies it (given a successful
sync of the verified copy). -/
theorem verifyCode_success (env : SyncEnv) (db : List UserRecord) (w : World)
    (now : Nat) (email code : String) (u : UserRecord) (uid : String)
    (hemail : email ≠ "") (hcode : code ≠ "")
    (hfind : findByEmail db email = some u) (hver : u.isVerified = false)
    (hc : u.verificationCode = some code)
    (hex : expiredAt u.codeExpires now = false)
    (hsync : (syncUserToFirebase env w (markVerifiedRec u)).1 = SyncOutcome.ok uid) :
    ∃ w1, verifyCode env db w now email code =
      (VerifyResult.verified, markVerifiedFull db email, w1) := by
  have hfind1 := findByEmail_markVerified hfind
  rcases hs : syncUserToFirebase env w (markVerifiedRec u) with ⟨out, w1⟩
  have hout : out = SyncOutcome.ok uid := by
    have h1 := hsync
    rw [hs] at h1
    exact h1
  subst hout
  refine ⟨w1, ?_⟩
  simp [verifyCode, hfind, hemail, hcode, hver, hc, hex, hfind1, hs]

/-- Claim C2 counterexample: in the server.js `POST /api/verify-code`, an
expired matching code yields the expired-code error but the returned
store is unchanged — the record still carries `verificationCode`, so
nothing is purged. -/
theorem C2_counterexample :
    verifyCode env0 [sampleUnverified] w0 2000 "a@x.com" "123456" =
      (VerifyResult.codeExpired, [sampleUnverified], w0) ∧
    (findByEmail [sampleUnverified] "a@x.com").map (fun u => u.verificationCode) =
      some (some "123456") :=
  ⟨rfl, rfl⟩

/-- Claim C2 (amended): submitting a matching code past its expiry fails
with the expired-code error in both variants; the part_007 variant purges
`verificationCode` and `codeExpiresAt` as a side effect, while the
server.js variant returns the error with the record left unchanged, the
stale code still stored. -/
theorem C2_expired_code_amended (env : SyncEnv) (db : List UserRecord)
    (w : World) (now : Nat) (email code : String) (u : UserRecord)
    (hemail : email ≠ "") (hcode : code ≠ "")
    (hfind : findByEmail db email = some u) (hver : u.isVerified = false)
    (hc : u.verificationCode = some code)
    (hex : expiredAt u.codeExpires now = true) :
    verifyCode env db w now email code = (VerifyResult.codeExpired, db, w) ∧
    verifyCodeP7 env db w now email code =
      (VerifyResult.codeExpired, purgeCode db email, w) ∧
    findByEmail (purgeCode db email) email =
      some { u with verificationCode := none, codeExpires := none } := by
  refine ⟨?_, ?_, ?_⟩
  · simp [verifyCode, hfind, hemail, hcode, hver, hc, hex]
  · simp [verifyCodeP7, hfind, hemail, hcode, hver, hc, hex]
  · unfold purgeCode
    exact findByEmail_update_self (fun v => rfl) hfind

/-- Witness for C2's amended theorem at a concrete expired record. -/
theorem C2_witness :
    verifyCode env0 [sampleUnverified] w0 2000 "a@x.com" "123456" =
      (VerifyResult.codeExpired, [sampleUnverified], w0) ∧
    verifyCodeP7 env0 [sampleUnverified] w0 2000 "a@x.com" "123456" =
      (VerifyResult.codeExpired, purgeCode [sampleUnverified] "a@x.com", w0) ∧
    findByEmail (purgeCode [sampleUnverified] "a@x.com") "a@x.com" =
      some { sampleUnverified with verificationCode := none, codeExpires := none } :=
  C2_expired_code_amended env0 [sampleUnverified] w0 2000 "a@x.com" "123456"
    sampleUnverified (by decide) (by decide) rfl rfl rfl rfl

/-- Claim C7: a matching, unexpired code on an unverified record verifies
the account, clearing the code, token and expiry fields; resubmitting the
same code then returns the already-verified success with the store and
external state unchanged. -/
theorem C7_code_consumed_once (env : SyncEnv) (db : List UserRecord)
    (w : World) (now : Nat) (email code : String) (u : UserRecord) (uid : String)
    (hemail : email ≠ "") (hcode : code ≠ "")
    (hfind : findByEmail db email = some u) (hver : u.isVerified = false)
    (hc : u.verificationCode = some code)
    (hex : expiredAt u.codeExpires now = false)
    (hsync : (syncUserToFirebase env w (markVerifiedRec u)).1 = SyncOutcome.ok uid) :
    ∃ w1, verifyCode env db w now email code =
        (VerifyResult.verified, markVerifiedFull db email, w1) ∧
      findByEmail (markVerifiedFull db email) email = some (markVerifiedRec u) ∧
      (markVerifiedRec u).isVerified = true ∧
      (markVerifiedRec u).verificationCode = none ∧
      (markVerifiedRec u).verificationToken = none ∧
      (markVerifiedRec u).codeExpires = none ∧
      (∀ env2 now2, verifyCode env2 (markVerifiedFull db email) w1 now2 email code =
        (VerifyResult.alreadyVerified, markVerifiedFull db email, w1)) := by
  obtain ⟨w1, h1⟩ := verifyCode_success env db w now email code u uid
    hemail hcode hfind hver hc hex hsync
  have hfind1 := findByEmail_markVerified hfind
  refine ⟨w1, h1, hfind1, rfl, rfl, rfl, rfl, ?_⟩
  intro env2 now2
  simp [verifyCode, hfind1, hemail, hcode, markVerifiedRec]

/-- Witness for C7 at a concrete record: verify at time 500, resubmit at
time 9999. -/
theorem C7_witness :
    ∃ w1, verifyCode env0 [sampleUnverified] w0 500 "a@x.com" "123456" =
        (VerifyResult.verified, markVerifiedFull [sampleUnverified] "a@x.com", w1) ∧
      verifyCode env0 (markVerifiedFull [sampleUnverified] "a@x.com") w1 9999
          "a@x.com" "123456" =
        (VerifyResult.alreadyVerified,
         markVerifiedFull [sampleUnverified] "a@x.com", w1) := by
  obtain ⟨w1, h1, _, _, _, _, _, h7⟩ :=
    C7_code_consumed_once env0 [sampleUnverified] w0 500 "a@x.com" "123456"
      sampleUnverified "S001" (by decide) (by decide) rfl rfl rfl rfl rfl
  exact ⟨w1, h1, h7 env0 9999⟩

/-- Sample unverified record without a stored expiry field. -/
def sampleNoExpiry : UserRecord :=
  { sampleUnverified with
    studentNo := "S003"
    email := "n@x.com"
    codeExpires := none }

/-- Claim C10: for an unverified record with no stored expiry field, the
expiry guard never fires (the JS condition requires the field to be
present), so a matching code verifies the account at every submission
time `now`. -/
theorem C10_absent_expiry_never_expires (env : SyncEnv) (db : List UserRecord)
    (w : World) (now : Nat) (email code : String) (u : UserRecord) (uid : String)
    (hemail : email ≠ "") (hcode : code ≠ "")
    (hfind : findByEmail db email = some u) (hver : u.isVerified = false)
    (hc : u.verificationCode = some code) (hnoexp : u.codeExpires = none)
    (hsync : (syncUserToFirebase env w (markVerifiedRec u)).1 = SyncOutcome.ok uid) :
    ∃ w1, verifyCode env db w now email code =
        (VerifyResult.verified, markVerifiedFull db email, w1) ∧
      findByEmail (markVerifiedFull db email) email = some (markVerifiedRec u) ∧
      (markVerifiedRec u).isVerified = true := by
  have hex : expiredAt u.codeExpires now = false := by rw [hnoexp]; rfl
  obtain ⟨w1, h1⟩ := verifyCode_success env db w now email code u uid
    hemail hcode hfind hver hc hex hsync
  exact ⟨w1, h1, findByEmail_markVerified hfind, rfl⟩

/-- Witness for C10 at a very large submission time. -/
theorem C10_witness :
    ∃ w1, verifyCode env0 [sampleNoExpiry] w0 999999999 "n@x.com" "123456" =
        (VerifyResult.verified, markVerifiedFull [sampleNoExpiry] "n@x.com", w1) ∧
      findByEmail (markVerifiedFull [sampleNoExpiry] "n@x.com") "n@x.com" =
        some (markVerifiedRec sampleNoExpiry) ∧
      (markVerifiedRec sampleNoExpiry).isVerified = true :=
  C10_absent_expiry_never_expires env0 [sampleNoExpiry] w0 999999999 "n@x.com"
    "123456" sampleNoExpiry "S003" (by decide) (by decide) rfl rfl rfl rfl rfl

/-- Claim C3 counterexample: an already-verified record (whose token was
cleared by verification) gets the invalid-link error for a submitted
token, not the already-verified success; and an unverified record whose
token matches is verified outright although it carries a (long past)
`codeExpires` value — `verifyLink` never consults any clock, so no
expired-code error is possible. -/
theorem C3_counterexample :
    (sampleVerified.isVerified = true ∧
     verifyLink env0 [sampleVerified] w0 "v@x.com" "anytok" =
       (LinkResult.invalidLink, [sampleVerified], w0)) ∧
    (sampleUnverified.isVerified = false ∧
     sampleUnverified.verificationToken = some "tok" ∧
     sampleUnverified.codeExpires = some 1000 ∧
     (verifyLink env0 [sampleUnverified] w0 "a@x.com" "tok").1 =
       LinkResult.verified) :=
  ⟨⟨rfl, rfl⟩, rfl, rfl, rfl, rfl⟩

/-- Claim C3 (amended): `verifyLink` checks the token match before the
verified flag, so an already-verified record yields the already-verified
success only when its stored `verificationToken` still equals the
submitted token, and the invalid-link error for any other token (in
particular always after normal verification, which clears the token); and
it performs no expiry check — an unverified record with a matching token
is verified regardless of its `codeExpires` value. -/
theorem C3_verify_link_amended (env : SyncEnv) (db : List UserRecord)
    (w : World) (email token : String) (u : UserRecord)
    (hemail : email ≠ "") (htok : token ≠ "")
    (hfind : findByEmail db email = some u) :
    (u.isVerified = true → u.verificationToken ≠ some token →
      verifyLink env db w email token = (LinkResult.invalidLink, db, w)) ∧
    (u.isVerified = true → u.verificationToken = some token →
      verifyLink env db w email token = (LinkResult.alreadyVerified, db, w)) ∧
    (∀ uid, u.isVerified = false → u.verificationToken = some token →
      (syncUserToFirebase env w (markVerifiedRec u)).1 = SyncOutcome.ok uid →
      ∃ w1, verifyLink env db w email token =
        (LinkResult.verified, markVerifiedFull db email, w1)) := by
  refine ⟨?_, ?_, ?_⟩
  · intro _ hne
    have hb : (u.verificationToken != some token) = true := by
      simp [bne_iff_ne, hne]
    simp [verifyLink, hfind, hemail, htok, hb]
  · intro hver heq
    simp [verifyLink, hfind, hemail, htok, heq, hver]
  · intro uid hver heq hsync
    have hfind1 := findByEmail_markVerified hfind
    rcases hs : syncUserToFirebase env w (markVerifiedRec u) with ⟨out, w1⟩
    have hout : out = SyncOutcome.ok uid := by
      have h1 := hsync
      rw [hs] at h1
      exact h1
    subst hout
    refine ⟨w1, ?_⟩
    simp [verifyLink, hfind, hemail, htok, heq, hver, hfind1, hs]

/-- Witness for C3's amended theorem: the invalid-link response on a
verified record and the expiry-ignoring verification on an unverified
record with a matching token. -/
theorem C3_witness :
    verifyLink env0 [sampleVerified] w0 "v@x.com" "anytok" =
      (LinkResult.invalidLink, [sampleVerified], w0) ∧
    (∃ w1, verifyLink env0 [sampleUnverified] w0 "a@x.com" "tok" =
      (LinkResult.verified, markVerifiedFull [sampleUnverified] "a@x.com", w1)) := by
  have h1 := C3_verify_link_amended env0 [sampleVerified] w0 "v@x.com" "anytok"
    sampleVerified (by decide) (by decide) rfl
  have h2 := C3_verify_link_amended env0 [sampleUnverified] w0 "a@x.com" "tok"
    sampleUnverified (by decide) (by decide) rfl
  exact ⟨h1.1 rfl (by decide), h2.2.2 "S001" rfl rfl rfl⟩

/-- After filtering out a uid, the Identity Provider lookup for it is
empty. -/
theorem idpGetUser_filter_none (idp : List IdpUser) (sno : String) :
    idpGetUser (idp.filter (fun u => !(u.uid == sno))) sno = none := by
  induction idp with
  | nil => rfl
  | cons a l ih =>
      cases ha : a.uid == sno
      · simp only [idpGetUser, List.filter, List.find?, ha] at ih ⊢
        simp [ha, ih]
      · simp only [idpGetUser, List.filter, ha] at ih ⊢
        exact ih

/-- Healthy deletion environment. -/
def delEnv0 : DeleteEnv := { authDeleteFails := false, firestoreDeleteFails := false }

/-- Claim C8: administrative deletion removes the Credential Store record
when present, tolerates a missing Identity Provider user and missing
Profile Mirror documents without an error (for any Firestore-failure
oracle), and the reported flags `mongoDeleted`/`authDeleted` are true
exactly when the respective store held a record; the Identity Provider
user is gone afterwards. -/
theorem C8_delete_reports_per_store (env : DeleteEnv) (db : List UserRecord)
    (w : World) (sno email : String)
    (hsno : sno ≠ "") (hemail : email ≠ "")
    (hauth : env.authDeleteFails = false)
    (hone : ((findByEmail db email).isSome || (idpGetUser w.idp sno).isSome) = true) :
    ∃ w1, deleteStudent env db w sno email =
        (DeleteResult.deleted (findByEmail db email).isSome
          (idpGetUser w.idp sno).isSome, deleteOneByEmail db email, w1) ∧
      idpGetUser w1.idp sno = none := by
  cases hidp : idpGetUser w.idp sno with
  | some x =>
      cases hfs : env.firestoreDeleteFails
      · refine ⟨{ w with
            idp := w.idp.filter (fun u => !(u.uid == sno))
            fsStudents := w.fsStudents.filter (fun d => !(d == sno)) }, ?_, ?_⟩
        · simp [deleteStudent, hsno, hemail, hauth, hidp, hfs]
        · exact idpGetUser_filter_none w.idp sno
      · refine ⟨{ w with idp := w.idp.filter (fun u => !(u.uid == sno)) }, ?_, ?_⟩
        · simp [deleteStudent, hsno, hemail, hauth, hidp, hfs]
        · exact idpGetUser_filter_none w.idp sno
  | none =>
      have hm : (findByEmail db email).isSome = true := by
        rw [hidp] at hone
        simpa using hone
      cases hfs : env.firestoreDeleteFails
      · refine ⟨{ w with fsStudents := w.fsStudents.filter (fun d => !(d == sno)) },
          ?_, ?_⟩
        · simp [deleteStudent, hsno, hemail, hidp, hm, hfs]
        · exact hidp
      · refine ⟨w, ?_, ?_⟩
        · simp [deleteStudent, hsno, hemail, hidp, hm, hfs]
        · exact hidp

/-- Witness for C8: Credential Store record present, Identity Provider user
absent — deletion succeeds, `mongoDeleted = true`, `authDeleted = false`. -/
theorem C8_witness :
    ∃ w1, deleteStudent delEnv0 [sampleVerified] w0 "S002" "v@x.com" =
        (DeleteResult.deleted (findByEmail [sampleVerified] "v@x.com").isSome
          (idpGetUser w0.idp "S002").isSome,
         deleteOneByEmail [sampleVerified] "v@x.com", w1) ∧
      idpGetUser w1.idp "S002" = none :=
  C8_delete_reports_per_store delEnv0 [sampleVerified] w0 "S002" "v@x.com"
    (by decide) (by decide) rfl (by decide)

/-- The store written by `verifyCode` is either unchanged or the guarded
verify-update at the submitted email. -/
theorem verifyCode_store (env : SyncEnv) (db : List UserRecord) (w : World)
    (now : Nat) (email code : String) :
    (verifyCode env db w now email code).2.1 = db ∨
    (verifyCode env db w now email code).2.1 = markVerifiedFull db email := by
  simp only [verifyCode]
  by_cases h0 : (email == "" || code == "") = true
  · rw [if_pos h0]
    exact Or.inl rfl
  · rw [if_neg h0]
    cases hf : findByEmail db email with
    | none => exact Or.inl rfl
    | some u0 =>
        dsimp only
        by_cases hv : u0.isVerified = true
        · rw [if_pos hv]
          exact Or.inl rfl
        · rw [if_neg hv]
          by_cases hm : (u0.verificationCode != some code) = true
          · rw [if_pos hm]
            exact Or.inl rfl
          · rw [if_neg hm]
            by_cases hx : expiredAt u0.codeExpires now = true
            · rw [if_pos hx]
              exact Or.inl rfl
            · rw [if_neg hx]
              cases hf1 : findByEmail (markVerifiedFull db email) email with
              | none => exact Or.inr rfl
              | some vU =>
                  rcases hs : syncUserToFirebase env w vU with ⟨out, w1⟩
                  simp only [hs]
                  cases out
                  all_goals exact Or.inr rfl

/-- The store written by `verifyLink` is either unchanged or the guarded
verify-update at the submitted email. -/
theorem verifyLink_store (env : SyncEnv) (db : List UserRecord) (w : World)
    (email token : String) :
    (verifyLink env db w email token).2.1 = db ∨
    (verifyLink env db w email token).2.1 = markVerifiedFull db email := by
  simp only [verifyLink]
  by_cases h0 : (token == "" || email == "") = true
  · rw [if_pos h0]
    exact Or.inl rfl
  · rw [if_neg h0]
    cases hf : findByEmail db email with
    | none => exact Or.inl rfl
    | some u0 =>
        dsimp only
        by_cases hm : (u0.verificationToken != some token) = true
        · rw [if_pos hm]
          exact Or.inl rfl
        · rw [if_neg hm]
          by_cases hv : u0.isVerified = true
          · rw [if_pos hv]
            exact Or.inl rfl
          · rw [if_neg hv]
            cases hf1 : findByEmail (markVerifiedFull db email) email with
            | none => exact Or.inr rfl
            | some vU =>
                rcases hs : syncUserToFirebase env w vU with ⟨out, w1⟩
                simp only [hs]
                cases out
                all_goals exact Or.inr rfl

/-- The store written by `resendCode` is either unchanged or the guarded
code-refresh update at the submitted email. -/
theorem resendCode_store (db : List UserRecord) (email newCode newToken : String)
    (newExpiry : Nat) (emailSent : Bool) :
    (resendCode db email newCode newToken newExpiry emailSent).2 = db ∨
    (resendCode db email newCode newToken newExpiry emailSent).2 =
      updateByEmail db email (fun u =>
        { u with verificationCode := some newCode,
                 verificationToken := some newToken,
                 codeExpires := some newExpiry }) := by
  simp only [resendCode]
  by_cases h0 : (email == "") = true
  · rw [if_pos h0]
    exact Or.inl rfl
  · rw [if_neg h0]
    cases hf : findByEmail db email with
    | none => exact Or.inl rfl
    | some u0 =>
        dsimp only
        by_cases hv : u0.isVerified = true
        · rw [if_pos hv]
          exact Or.inl rfl
        · rw [if_neg hv]
          cases emailSent
          · exact Or.inr rfl
          · exact Or.inr rfl

/-- The store written by `register` is either unchanged or extended by one
appended record. -/
theorem register_store (db : List UserRecord) (input : RegisterInput)
    (hashed code token : String) (expiry : Nat) (emailSent : Bool) :
    (register db input hashed code token expiry emailSent).2 = db ∨
    ∃ rec, (register db input hashed code token expiry emailSent).2 = db ++ [rec] := by
  simp only [register]
  by_cases h0 : (input.email == "" || input.password == "" || input.studentNo == "") = true
  · rw [if_pos h0]
    exact Or.inl rfl
  · rw [if_neg h0]
    by_cases h1 : (findByStudentNo db input.studentNo).isSome = true
    · rw [if_pos h1]
      exact Or.inl rfl
    · rw [if_neg h1]
      by_cases h2 : (findByEmail db input.email).isSome = true
      · rw [if_pos h2]
        exact Or.inl rfl
      · rw [if_neg h2]
        cases emailSent
        · exact Or.inr ⟨_, rfl⟩
        · exact Or.inr ⟨_, rfl⟩

/-- Claim C9: `isVerified` is monotone.  For a stored record with
`isVerified = true`, no operation among verify-by-code, verify-by-link,
resend-code, login-and-sync and register ever modifies that record — in
particular none reverts `isVerified` or re-arms verification by writing a
new `verificationCode`/`verificationToken`/expiry onto it: the record
looked up by its email afterwards is exactly the original. -/
theorem C9_isVerified_monotone (db : List UserRecord) (w : World)
    (r : UserRecord) (op : Op)
    (hfind : findByEmail db r.email = some r) (hver : r.isVerified = true) :
    findByEmail (applyOp db w op).1 r.email = some r := by
  cases op with
  | opVerifyCode env now email code =>
      simp only [applyOp]
      by_cases he : email = r.email
      · subst he
        by_cases h0 : (r.email == "" || code == "") = true
        · simp [verifyCode, h0, hfind]
        · simp [verifyCode, h0, hfind, hver]
      · rcases verifyCode_store env db w now email code with h | h
        · rw [h]
          exact hfind
        · rw [h]
          unfold markVerifiedFull
          exact findByEmail_update_other (fun v => rfl) (fun hc => he hc.symm) hfind
  | opVerifyLink env email token =>
      simp only [applyOp]
      by_cases he : email = r.email
      · subst he
        by_cases h0 : (token == "" || r.email == "") = true
        · simp [verifyLink, h0, hfind]
        · by_cases hm : (r.verificationToken != some token) = true
          · simp [verifyLink, h0, hfind, hm]
          · simp [verifyLink, h0, hfind, hm, hver]
      · rcases verifyLink_store env db w email token with h | h
        · rw [h]
          exact hfind
        · rw [h]
          unfold markVerifiedFull
          exact findByEmail_update_other (fun v => rfl) (fun hc => he hc.symm) hfind
  | opResendCode email newCode newToken newExpiry emailSent =>
      simp only [applyOp]
      by_cases he : email = r.email
      · subst he
        by_cases h0 : (r.email == "") = true
        · simp [resendCode, h0, hfind]
        · simp [resendCode, h0, hfind, hver]
      · rcases resendCode_store db email newCode newToken newExpiry emailSent with h | h
        · rw [h]
          exact hfind
        · rw [h]
          exact findByEmail_update_other (fun v => rfl) (fun hc => he hc.symm) hfind
  | opLogin env email password =>
      simp only [applyOp]
      exact hfind
  | opRegister input hashed code token expiry emailSent =>
      simp only [applyOp]
      rcases register_store db input hashed code token expiry emailSent with h | ⟨rec, h⟩
      · rw [h]
        exact hfind
      · rw [h]
        exact findByEmail_append hfind

/-- Witness for C9: a resend-code request against an already-verified
record leaves it untouched. -/
theorem C9_witness :
    findByEmail (applyOp [sampleVerified] w0
      (Op.opResendCode "v@x.com" "999999" "newtok" 5000 true)).1
      sampleVerified.email = some sampleVerified :=
  C9_isVerified_monotone [sampleVerified] w0 sampleVerified
    (Op.opResendCode "v@x.com" "999999" "newtok" 5000 true) rfl rfl

end Loaisko
